import Mathlib

/-!
Shallow embedding of `vis/seaborn.py` (the repository's single module).

The module defines `contour_plot` and the worker `_contour_plot`.  The
embedding models the surface (matplotlib Axes), the keyword dictionary, the
contour primitive, and Python's name-resolution failures, and threads the
surface state explicitly.  Line numbers in the comments refer to
`src/vis/seaborn.py`.

Two name-binding facts of the source matter for the behaviour:

* The module's only imports are `matplotlib.pyplot as plt`,
  `seaborn as sns`, `matplotlib as mpl`, `numpy as np` and
  `six.string_types` (lines 1-6).  The helpers `light_palette`,
  `dark_palette`, `color_palette` and `blend_palette` are referenced as bare
  names (lines 148, 150, 154, 155) but are never imported or defined, so
  evaluating those calls raises `NameError`.

* The locals `color` and `cmap` are assigned only inside the
  `colors is None` branch (lines 144-157); in the `else` branch (line 160)
  they stay unbound, so reading them at line 181 raises
  `UnboundLocalError`.
-/

namespace Vis

/-- A base color, identified by its matplotlib color string (e.g. "r"). -/
abbrev Color := String

/-- A resolved colormap object.  `named s` is the object returned by
`mpl.cm.get_cmap s` (line 157); `user n` is an opaque colormap object the
caller passed directly through the `cmap` keyword. -/
inductive Cmap where
  | named : String → Cmap
  | user : Nat → Cmap
deriving DecidableEq, Repr

/-- The value of the `cmap` keyword as the caller may supply it: either a
string name or an already-constructed colormap object. -/
inductive CmapArg where
  | str : String → CmapArg
  | obj : Cmap → CmapArg
deriving DecidableEq, Repr

/-- The color stored on a drawn artifact: a base color, or the value of a
colormap evaluated at a position in [0, 1] (used for `cmap(.95)`, line 181). -/
inductive RColor where
  | base : Color → RColor
  | cmapAt : Cmap → ℚ → RColor
deriving DecidableEq, Repr

/-- The `n_levels` argument: a number of levels, or an explicit sequence of
level values (both are forwarded positionally to the contour primitive). -/
inductive NLevels where
  | count : Nat → NLevels
  | seq : List ℚ → NLevels
deriving DecidableEq, Repr

/-- The keyword dictionary `**kwargs` of `_contour_plot`, restricted to the
keys the function reads plus an opaque remainder.  A field being `none`
models the key being absent from the dict (`kwargs.pop(k, d)` then yields the
default `d`).  For `color` the inner `Option` distinguishes an explicit
`color=None` (`some none`) from a color value (`some (some c)`); for
`colors`, `cmap` and `label` an explicit `None` is indistinguishable from an
absent key, because the pop default is `None`. -/
structure Kwargs where
  n_levels : Option NLevels := none
  colors : Option (List Color) := none
  color : Option (Option Color) := none
  cmap : Option CmapArg := none
  label : Option String := none
  extra : List (String × String) := []
deriving DecidableEq, Repr

/-- One collection of a filled contour set (a band).  `alpha = none` means
the opacity is whatever the drawing primitive computed; `set_alpha` stores an
explicit value. -/
structure Band where
  alpha : Option ℚ
deriving DecidableEq, Repr

/-- The contour set returned by `ax.contour{f}`: its list of collections
(bands for the filled variant), exposed because line 167 mutates
`cset.collections[0]`. -/
structure ContourSet where
  collections : List Band
deriving DecidableEq, Repr

/-- An artifact drawn onto the surface by `ax.plot` or `ax.fill_between`:
its x data, y data, explicit color (if any) and label (if any). -/
inductive Artifact where
  | line : List ℚ → List ℚ → Option RColor → Option String → Artifact
  | fillBetween : List ℚ → List ℚ → Option RColor → Option String → Artifact
deriving DecidableEq, Repr

/-- A colorbar attached by `ax.figure.colorbar(cset, cbar_ax, ax, **cbar_kws)`
(line 172): the target axes (by id) and the forwarded keyword arguments. -/
structure ColorbarRec where
  cbar_ax : Option Nat
  kws : List (String × String)
deriving DecidableEq, Repr

/-- The drawing surface (a matplotlib Axes).  `id` is the object identity,
which no operation changes; `cycleIdx` is the position in the surface's
automatic color cycle, advanced by each `ax.plot` call without an explicit
color. -/
structure Axes where
  id : Nat
  artifacts : List Artifact := []
  cycleIdx : Nat := 0
  xlabel : Option String := none
  ylabel : Option String := none
  colorbars : List ColorbarRec := []
deriving DecidableEq, Repr

/-- A 1-d input array after coercion: its numeric values and the optional
`name` attribute (present on pandas-like inputs, absent on plain lists and
numpy arrays; `astype` preserves it when present). -/
structure DataArray where
  values : List ℚ
  name : Option String := none
deriving DecidableEq, Repr

/-- The Python errors the module itself can raise: reading an unbound module
global (`NameError`), reading an unbound function local
(`UnboundLocalError`), and indexing an empty `collections` list
(`IndexError`). -/
inductive PyError where
  | nameError : String → PyError
  | unboundLocal : String → PyError
  | indexError : PyError
deriving DecidableEq, Repr

/-- The invocation of the contour primitive at line 165: which variant was
chosen, the positional data and level arguments, and the keyword dictionary
as it stood at the call. -/
structure ContourCall where
  filled : Bool
  x : DataArray
  y : DataArray
  z : List (List ℚ)
  n_levels : NLevels
  kwargs : Kwargs
deriving DecidableEq, Repr

/-- The outcome of a call: the surface in its final state (reflecting every
mutation performed before a possible error), the recorded contour-primitive
invocation if one happened, the final contour set, and the raised error if
the call did not complete. -/
structure RunResult where
  ax : Axes
  contourCall : Option ContourCall := none
  cset : Option ContourSet := none
  error : Option PyError := none
deriving DecidableEq, Repr

/-- The external collaborators: the current default surface (`plt.gca`), the
surface's automatic color cycle, and the collection opacities the contour
primitive computes for the drawn set. -/
structure Env where
  gca : Axes
  cycle : Nat → Color
  bandAlphas : List (Option ℚ)

/-- The test `cmap.endswith("_d")` of line 152, computed on the character
list of the string: true iff the last two characters are "_d". -/
def hasReversalSuffix (s : String) : Bool :=
  match s.data.reverse with
  | d :: u :: _ => d = 'd' && u = '_'
  | _ => false

/-- Resolution of a caller-supplied `cmap` argument, lines 151-157.  A string
ending in "_d" reaches `color_palette(...)` (line 154), an unbound name in
this module, so a `NameError` is raised before any blend is built; any other
string is resolved with `mpl.cm.get_cmap`; a non-string passes through. -/
def resolveCmapArg : CmapArg → Except PyError Cmap
  | CmapArg.str s =>
      if hasReversalSuffix s then Except.error (PyError.nameError "color_palette")
      else Except.ok (Cmap.named s)
  | CmapArg.obj m => Except.ok m

/-- Line 181, `legend_color = cmap(.95) if color is None else color`, with
the binding state of the locals made explicit: an outer `none` means the
local was never assigned, so reading it raises `UnboundLocalError`.  The
condition reads `color` first; `cmap` is read only when `color` is `None`. -/
def legendColor : Option (Option Color) → Option Cmap → Except PyError RColor
  | none, _ => Except.error (PyError.unboundLocal "color")
  | some none, none => Except.error (PyError.unboundLocal "cmap")
  | some none, some m => Except.ok (RColor.cmapAt m (19 / 20 : ℚ))
  | some (some c), _ => Except.ok (RColor.base c)

/-- Lines 166-167: `if filled and not fill_lowest:
cset.collections[0].set_alpha(0)`.  Indexing an empty collection list raises
`IndexError`; otherwise the first band's opacity becomes 0 and the remaining
bands are untouched. -/
def setAlphaStep (filled fill_lowest : Bool) (cset : ContourSet) :
    Except PyError ContourSet :=
  if filled && !fill_lowest then
    match cset.collections with
    | [] => Except.error PyError.indexError
    | _ :: rest => Except.ok { collections := { alpha := some (0 : ℚ) } :: rest }
  else Except.ok cset

/-- Lines 162-187 of `_contour_plot`, after the color/colors resolution:
pop `label`, invoke the contour primitive, suppress the lowest band if
requested, attach the colorbar, set the axis labels, and draw the legend
proxy.  `colorVar` and `cmapVar` carry the binding state of the locals
`color` and `cmap` at this point (`none` = never assigned). -/
def drawAndDecorate (env : Env) (x y : DataArray) (z : List (List ℚ))
    (filled fill_lowest axlabel cbar : Bool)
    (cbar_ax : Option Nat) (cbar_kws : Option (List (String × String)))
    (ax : Axes) (kwargs : Kwargs) (n_levels : NLevels)
    (colorVar : Option (Option Color)) (cmapVar : Option Cmap) : RunResult :=
  -- label = kwargs.pop("label", None)                               (line 162)
  let label := kwargs.label
  let kwargs := { kwargs with label := none }
  -- cset = contour_func(x, y, z, n_levels, **kwargs)          (lines 164-165)
  let call : ContourCall :=
    { filled := filled, x := x, y := y, z := z, n_levels := n_levels,
      kwargs := kwargs }
  let cset0 : ContourSet := { collections := env.bandAlphas.map Band.mk }
  match setAlphaStep filled fill_lowest cset0 with
  | Except.error e =>
      { ax := ax, contourCall := some call, cset := some cset0, error := some e }
  | Except.ok cset =>
    -- if cbar: ax.figure.colorbar(cset, cbar_ax, ax, **cbar_kws) (lines 170-172)
    let ax := if cbar then
        { ax with colorbars :=
            ax.colorbars ++ [{ cbar_ax := cbar_ax, kws := cbar_kws.getD [] }] }
      else ax
    -- if hasattr(x, "name") and axlabel: ax.set_xlabel(x.name)  (lines 175-178)
    let ax := if x.name.isSome && axlabel then { ax with xlabel := x.name } else ax
    let ax := if y.name.isSome && axlabel then { ax with ylabel := y.name } else ax
    -- if label is not None: ...                                 (lines 180-185)
    match label with
    | none =>
        { ax := ax, contourCall := some call, cset := some cset, error := none }
    | some lab =>
      match legendColor colorVar cmapVar with
      | Except.error e =>
          { ax := ax, contourCall := some call, cset := some cset, error := some e }
      | Except.ok lc =>
        let proxy := if filled then Artifact.fillBetween [] [] (some lc) (some lab)
          else Artifact.line [] [] (some lc) (some lab)
        { ax := { ax with artifacts := ax.artifacts ++ [proxy] },
          contourCall := some call, cset := some cset, error := none }

/-- The worker `_contour_plot(x, y, z, filled, fill_lowest, axlabel, cbar,
cbar_ax, cbar_kws, ax, **kwargs)`, lines 132-187. -/
def _contour_plot (env : Env) (x y : DataArray) (z : List (List ℚ))
    (filled fill_lowest axlabel cbar : Bool)
    (cbar_ax : Option Nat) (cbar_kws : Option (List (String × String)))
    (ax : Axes) (kwargs : Kwargs) : RunResult :=
  -- n_levels = kwargs.pop("n_levels", 10)                           (line 136)
  let n_levels := kwargs.n_levels.getD (NLevels.count 10)
  let kwargs := { kwargs with n_levels := none }
  -- scout, = ax.plot([], []); default_color = scout.get_color();
  -- scout.remove()                                            (lines 138-140)
  -- The probe line takes the next color of the surface cycle and is removed
  -- again, so only the advanced cycle position persists.
  let default_color := env.cycle ax.cycleIdx
  let ax := { ax with cycleIdx := ax.cycleIdx + 1 }
  -- colors = kwargs.pop("colors", None)                             (line 142)
  let colors := kwargs.colors
  let kwargs := { kwargs with colors := none }
  match colors with
  | none =>
    -- color = kwargs.pop("color", default_color)                    (line 144)
    let color : Option Color := kwargs.color.getD (some default_color)
    let kwargs := { kwargs with color := none }
    -- cmap = kwargs.pop("cmap", None)                               (line 145)
    let cmapArg := kwargs.cmap
    let kwargs := { kwargs with cmap := none }
    match cmapArg with
    | none =>
      -- cmap = light_palette(color, as_cmap=True)  /  dark_palette(...)
      -- (lines 146-150): neither name is bound in the module, whose only
      -- import of seaborn is `import seaborn as sns`, so Python raises
      -- NameError before the contour primitive is ever called.
      { ax := ax,
        error := some (PyError.nameError
          (if filled then "light_palette" else "dark_palette")) }
    | some a =>
      match resolveCmapArg a with
      | Except.error e => { ax := ax, error := some e }
      | Except.ok m =>
        -- kwargs["cmap"] = cmap                                     (line 158)
        drawAndDecorate env x y z filled fill_lowest axlabel cbar cbar_ax
          cbar_kws ax { kwargs with cmap := some (CmapArg.obj m) } n_levels
          (some color) (some m)
  | some cs =>
    -- kwargs["colors"] = colors (line 160); the locals color and cmap are
    -- never assigned on this branch.
    drawAndDecorate env x y z filled fill_lowest axlabel cbar cbar_ax cbar_kws
      ax { kwargs with colors := some cs } n_levels none none

/-- The public entry point `contour_plot(x, y, z, shade, legend,
shade_lowest, cbar, cbar_ax, cbar_kws, ax, **kwargs)`, lines 9-129.  The
list-to-array coercion and the `astype(np.float64)` casts keep the numeric
values and the `name` metadata, so they are identities on `DataArray`. -/
def contour_plot (env : Env) (x y : DataArray) (z : List (List ℚ))
    (shade legend shade_lowest cbar : Bool)
    (cbar_ax : Option Nat) (cbar_kws : Option (List (String × String)))
    (ax : Option Axes) (kwargs : Kwargs) : RunResult :=
  -- if ax is None: ax = plt.gca()                             (lines 109-110)
  let ax := match ax with
    | none => env.gca
    | some a => a
  -- if len(x) == 0: return ax                                 (lines 112-115)
  if x.values.length = 0 then
    { ax := ax }
  else
    _contour_plot env x y z shade shade_lowest legend cbar cbar_ax cbar_kws
      ax kwargs

/-! ### Path lemmas

Each lemma characterises one control-flow path of the source, so that the
claim theorems can be assembled from them. -/

/-- `legendColor` never fails once both locals are bound. -/
theorem legendColor_some (cv : Option Color) (m : Cmap) :
    legendColor (some cv) (some m)
      = Except.ok (match cv with
          | none => RColor.cmapAt m (19 / 20 : ℚ)
          | some c => RColor.base c) := by
  cases cv <;> rfl

/-- Nonempty x: `contour_plot` hands over to `_contour_plot` on the selected
surface (lines 109-129). -/
theorem contour_plot_nonempty (env : Env) (x y : DataArray)
    (z : List (List ℚ)) (shade legend shade_lowest cbar : Bool)
    (cbar_ax : Option Nat) (cbar_kws : Option (List (String × String)))
    (ax : Option Axes) (kwargs : Kwargs) (hx : x.values ≠ []) :
    contour_plot env x y z shade legend shade_lowest cbar cbar_ax cbar_kws
        ax kwargs
      = _contour_plot env x y z shade shade_lowest legend cbar cbar_ax
          cbar_kws (ax.getD env.gca) kwargs := by
  cases ax <;>
    · simp only [contour_plot, Option.getD]
      rw [if_neg (by simpa using hx)]

/-- Discrete-colors path (line 160): the locals `color` and `cmap` stay
unbound. -/
theorem _contour_plot_colors_some (env : Env) (x y : DataArray)
    (z : List (List ℚ)) (filled fill_lowest axlabel cbar : Bool)
    (cbar_ax : Option Nat) (cbar_kws : Option (List (String × String)))
    (ax : Axes) (kwargs : Kwargs) (cs : List Color)
    (h : kwargs.colors = some cs) :
    _contour_plot env x y z filled fill_lowest axlabel cbar cbar_ax cbar_kws
        ax kwargs
      = drawAndDecorate env x y z filled fill_lowest axlabel cbar cbar_ax
          cbar_kws { ax with cycleIdx := ax.cycleIdx + 1 }
          { kwargs with n_levels := none, colors := some cs }
          (kwargs.n_levels.getD (NLevels.count 10)) none none := by
  simp only [_contour_plot, h]

/-- Derivation path with no `cmap` given (lines 146-150): the palette helper
names are unbound, so the call dies with a `NameError` before drawing. -/
theorem _contour_plot_cmap_absent (env : Env) (x y : DataArray)
    (z : List (List ℚ)) (filled fill_lowest axlabel cbar : Bool)
    (cbar_ax : Option Nat) (cbar_kws : Option (List (String × String)))
    (ax : Axes) (kwargs : Kwargs)
    (hcol : kwargs.colors = none) (hcm : kwargs.cmap = none) :
    _contour_plot env x y z filled fill_lowest axlabel cbar cbar_ax cbar_kws
        ax kwargs
      = { ax := { ax with cycleIdx := ax.cycleIdx + 1 },
          error := some (PyError.nameError
            (if filled then "light_palette" else "dark_palette")) } := by
  simp only [_contour_plot, hcol, hcm]

/-- Derivation path with a `cmap` whose resolution fails (the "_d" suffix,
lines 151-155): `color_palette` is unbound, `NameError` before drawing. -/
theorem _contour_plot_cmap_err (env : Env) (x y : DataArray)
    (z : List (List ℚ)) (filled fill_lowest axlabel cbar : Bool)
    (cbar_ax : Option Nat) (cbar_kws : Option (List (String × String)))
    (ax : Axes) (kwargs : Kwargs) (a : CmapArg) (e : PyError)
    (hcol : kwargs.colors = none) (hcm : kwargs.cmap = some a)
    (hra : resolveCmapArg a = Except.error e) :
    _contour_plot env x y z filled fill_lowest axlabel cbar cbar_ax cbar_kws
        ax kwargs
      = { ax := { ax with cycleIdx := ax.cycleIdx + 1 }, error := some e } := by
  simp only [_contour_plot, hcol, hcm, hra]

/-- Derivation path with a resolvable `cmap` (lines 144-158): both locals
get bound, the resolved colormap is stored into the kwargs. -/
theorem _contour_plot_cmap_ok (env : Env) (x y : DataArray)
    (z : List (List ℚ)) (filled fill_lowest axlabel cbar : Bool)
    (cbar_ax : Option Nat) (cbar_kws : Option (List (String × String)))
    (ax : Axes) (kwargs : Kwargs) (a : CmapArg) (m : Cmap)
    (hcol : kwargs.colors = none) (hcm : kwargs.cmap = some a)
    (hra : resolveCmapArg a = Except.ok m) :
    _contour_plot env x y z filled fill_lowest axlabel cbar cbar_ax cbar_kws
        ax kwargs
      = drawAndDecorate env x y z filled fill_lowest axlabel cbar cbar_ax
          cbar_kws { ax with cycleIdx := ax.cycleIdx + 1 }
          { kwargs with n_levels := none, color := none,
                        cmap := some (CmapArg.obj m) }
          (kwargs.n_levels.getD (NLevels.count 10))
          (some (kwargs.color.getD (some (env.cycle ax.cycleIdx))))
          (some m) := by
  simp only [_contour_plot, hcol, hcm, hra]

/-- If the contour primitive produced at least one collection, the
lowest-band suppression step cannot fail. -/
theorem setAlphaStep_ne_error (f fl : Bool) (al : List (Option ℚ))
    (hb : al ≠ []) (e : PyError) :
    setAlphaStep f fl { collections := al.map Band.mk } ≠ Except.error e := by
  cases al with
  | nil => exact absurd rfl hb
  | cons a rest => cases hf : (f && !fl) <;> simp [setAlphaStep, hf]

/-- The decoration steps never change the surface object identity. -/
theorem drawAndDecorate_ax_id (env : Env) (x y : DataArray)
    (z : List (List ℚ)) (filled fill_lowest axlabel cbar : Bool)
    (cbar_ax : Option Nat) (cbar_kws : Option (List (String × String)))
    (ax : Axes) (kwargs : Kwargs) (n_levels : NLevels)
    (colorVar : Option (Option Color)) (cmapVar : Option Cmap) :
    (drawAndDecorate env x y z filled fill_lowest axlabel cbar cbar_ax
        cbar_kws ax kwargs n_levels colorVar cmapVar).ax.id = ax.id := by
  simp only [drawAndDecorate]
  cases hs : setAlphaStep filled fill_lowest
      { collections := List.map Band.mk env.bandAlphas } with
  | error e => rfl
  | ok cset =>
    cases hl : kwargs.label with
    | none => simp [apply_ite Axes.id]
    | some lab =>
      cases hlc : legendColor colorVar cmapVar with
      | error e => simp [apply_ite Axes.id]
      | ok lc => simp [apply_ite Axes.id]

/-- X-axis labeling (lines 175-176): set iff x carries a name and `axlabel`
holds, otherwise left as it was.  Needs a nonempty collection list so that
the suppression step cannot abort first. -/
theorem drawAndDecorate_xlabel (env : Env) (x y : DataArray)
    (z : List (List ℚ)) (filled fill_lowest axlabel cbar : Bool)
    (cbar_ax : Option Nat) (cbar_kws : Option (List (String × String)))
    (ax : Axes) (kwargs : Kwargs) (n_levels : NLevels)
    (colorVar : Option (Option Color)) (cmapVar : Option Cmap)
    (hb : env.bandAlphas ≠ []) :
    (drawAndDecorate env x y z filled fill_lowest axlabel cbar cbar_ax
        cbar_kws ax kwargs n_levels colorVar cmapVar).ax.xlabel
      = if x.name.isSome && axlabel then x.name else ax.xlabel := by
  simp only [drawAndDecorate]
  cases hs : setAlphaStep filled fill_lowest
      { collections := List.map Band.mk env.bandAlphas } with
  | error e => exact absurd hs (setAlphaStep_ne_error _ _ _ hb e)
  | ok cset =>
    cases hl : kwargs.label with
    | none => simp [apply_ite Axes.xlabel]
    | some lab =>
      cases hlc : legendColor colorVar cmapVar with
      | error e => simp [apply_ite Axes.xlabel]
      | ok lc => simp [apply_ite Axes.xlabel]

/-- Y-axis labeling (lines 177-178), same shape as the x case. -/
theorem drawAndDecorate_ylabel (env : Env) (x y : DataArray)
    (z : List (List ℚ)) (filled fill_lowest axlabel cbar : Bool)
    (cbar_ax : Option Nat) (cbar_kws : Option (List (String × String)))
    (ax : Axes) (kwargs : Kwargs) (n_levels : NLevels)
    (colorVar : Option (Option Color)) (cmapVar : Option Cmap)
    (hb : env.bandAlphas ≠ []) :
    (drawAndDecorate env x y z filled fill_lowest axlabel cbar cbar_ax
        cbar_kws ax kwargs n_levels colorVar cmapVar).ax.ylabel
      = if y.name.isSome && axlabel then y.name else ax.ylabel := by
  simp only [drawAndDecorate]
  cases hs : setAlphaStep filled fill_lowest
      { collections := List.map Band.mk env.bandAlphas } with
  | error e => exact absurd hs (setAlphaStep_ne_error _ _ _ hb e)
  | ok cset =>
    cases hl : kwargs.label with
    | none => simp [apply_ite Axes.ylabel]
    | some lab =>
      cases hlc : legendColor colorVar cmapVar with
      | error e => simp [apply_ite Axes.ylabel]
      | ok lc => simp [apply_ite Axes.ylabel]

/-- Filled mode with lowest-band suppression (lines 166-167): the final
contour set has the first band fully transparent and the remaining bands
exactly as computed. -/
theorem drawAndDecorate_cset_suppressed (env : Env) (x y : DataArray)
    (z : List (List ℚ)) (axlabel cbar : Bool) (cbar_ax : Option Nat)
    (cbar_kws : Option (List (String × String))) (ax : Axes)
    (kwargs : Kwargs) (n_levels : NLevels)
    (colorVar : Option (Option Color)) (cmapVar : Option Cmap)
    (a : Option ℚ) (rest : List (Option ℚ))
    (hb : env.bandAlphas = a :: rest) :
    (drawAndDecorate env x y z true false axlabel cbar cbar_ax cbar_kws ax
        kwargs n_levels colorVar cmapVar).cset
      = some { collections := { alpha := some (0 : ℚ) } :: rest.map Band.mk } := by
  simp only [drawAndDecorate, hb, setAlphaStep, List.map, Bool.not_false,
    Bool.and_self, if_true]
  cases hl : kwargs.label with
  | none => rfl
  | some lab =>
    cases hlc : legendColor colorVar cmapVar with
    | error e => rfl
    | ok lc => rfl

/-- Legend-proxy creation (lines 180-185) when both locals are bound and the
legend color evaluates: exactly one zero-length artifact is appended, of the
kind matching the drawing mode, and the call completes. -/
theorem drawAndDecorate_proxy (env : Env) (x y : DataArray)
    (z : List (List ℚ)) (filled fill_lowest axlabel cbar : Bool)
    (cbar_ax : Option Nat) (cbar_kws : Option (List (String × String)))
    (ax : Axes) (kwargs : Kwargs) (n_levels : NLevels)
    (colorVar : Option (Option Color)) (cmapVar : Option Cmap)
    (lab : String) (lc : RColor) (hb : env.bandAlphas ≠ [])
    (hl : kwargs.label = some lab)
    (hlc : legendColor colorVar cmapVar = Except.ok lc) :
    (drawAndDecorate env x y z filled fill_lowest axlabel cbar cbar_ax
        cbar_kws ax kwargs n_levels colorVar cmapVar).ax.artifacts
      = ax.artifacts
          ++ [if filled then Artifact.fillBetween [] [] (some lc) (some lab)
              else Artifact.line [] [] (some lc) (some lab)]
    ∧ (drawAndDecorate env x y z filled fill_lowest axlabel cbar cbar_ax
        cbar_kws ax kwargs n_levels colorVar cmapVar).error = none := by
  simp only [drawAndDecorate, hl]
  cases hs : setAlphaStep filled fill_lowest
      { collections := List.map Band.mk env.bandAlphas } with
  | error e => exact absurd hs (setAlphaStep_ne_error _ _ _ hb e)
  | ok cset =>
    simp only [hlc]
    refine ⟨?_, ?_⟩ <;> simp [apply_ite Axes.artifacts]

/-- Legend-proxy step with the local `color` unbound (discrete-colors branch
plus `label`): the call dies with `UnboundLocalError` and no artifact is
added. -/
theorem drawAndDecorate_unbound_color (env : Env) (x y : DataArray)
    (z : List (List ℚ)) (filled fill_lowest axlabel cbar : Bool)
    (cbar_ax : Option Nat) (cbar_kws : Option (List (String × String)))
    (ax : Axes) (kwargs : Kwargs) (n_levels : NLevels)
    (cmapVar : Option Cmap) (lab : String) (hb : env.bandAlphas ≠ [])
    (hl : kwargs.label = some lab) :
    (drawAndDecorate env x y z filled fill_lowest axlabel cbar cbar_ax
        cbar_kws ax kwargs n_levels none cmapVar).error
      = some (PyError.unboundLocal "color")
    ∧ (drawAndDecorate env x y z filled fill_lowest axlabel cbar cbar_ax
        cbar_kws ax kwargs n_levels none cmapVar).ax.artifacts
      = ax.artifacts := by
  simp only [drawAndDecorate, hl]
  cases hs : setAlphaStep filled fill_lowest
      { collections := List.map Band.mk env.bandAlphas } with
  | error e => exact absurd hs (setAlphaStep_ne_error _ _ _ hb e)
  | ok cset =>
    simp only [legendColor]
    refine ⟨?_, ?_⟩ <;> simp [apply_ite Axes.artifacts]

/-! ### Concrete fixtures for closed evaluations -/

/-- A plain numeric x input, `np.arange(1, 10)` from the docstring example:
no `name` attribute. -/
def xs9 : DataArray := { values := [1, 2, 3, 4, 5, 6, 7, 8, 9] }

/-- A plain numeric y input (the reshaped copy of `xs9`). -/
def ys9 : DataArray := { values := [1, 2, 3, 4, 5, 6, 7, 8, 9] }

/-- A small z grid, `x * y` restricted to a corner. -/
def zs9 : List (List ℚ) := [[1, 2, 3], [2, 4, 6], [3, 6, 9]]

/-- A concrete environment: a fresh default surface, a color cycle that is
constantly "C0", and a contour primitive producing three bands with
default (computed) opacities. -/
def env0 : Env :=
  { gca := { id := 37 }, cycle := fun _ => "C0",
    bandAlphas := [none, none, none] }

/-! ### Claim theorems -/

/-- Claim C1 (code bug): with `colors` absent, `color="r"` supplied and
`cmap` absent, the claim says the colormap passed to the contour primitive
is the light-palette (filled) or dark-palette (unfilled) derivation of the
color.  The code instead raises a `NameError` at line 148 (resp. 150):
`light_palette` and `dark_palette` are not bound in the module, so the call
aborts before the contour primitive is ever invoked. -/
theorem c1_palette_names_unbound :
    (contour_plot env0 xs9 ys9 zs9 true true true false none none none
        { color := some (some "r") }).error
      = some (PyError.nameError "light_palette")
    ∧ (contour_plot env0 xs9 ys9 zs9 true true true false none none none
        { color := some (some "r") }).contourCall = none
    ∧ (contour_plot env0 xs9 ys9 zs9 false true true false none none none
        { color := some (some "r") }).error
      = some (PyError.nameError "dark_palette")
    ∧ (contour_plot env0 xs9 ys9 zs9 false true true false none none none
        { color := some (some "r") }).contourCall = none :=
  ⟨rfl, rfl, rfl, rfl⟩

/-- Helper: whatever happens after the contour primitive runs, the recorded
invocation is the one built from the kwargs with `label` popped. -/
theorem drawAndDecorate_contourCall (env : Env) (x y : DataArray)
    (z : List (List ℚ)) (filled fill_lowest axlabel cbar : Bool)
    (cbar_ax : Option Nat) (cbar_kws : Option (List (String × String)))
    (ax : Axes) (kwargs : Kwargs) (n_levels : NLevels)
    (colorVar : Option (Option Color)) (cmapVar : Option Cmap) :
    (drawAndDecorate env x y z filled fill_lowest axlabel cbar cbar_ax
        cbar_kws ax kwargs n_levels colorVar cmapVar).contourCall
      = some { filled := filled, x := x, y := y, z := z,
               n_levels := n_levels,
               kwargs := { kwargs with label := none } } := by
  simp only [drawAndDecorate]
  cases hs : setAlphaStep filled fill_lowest
      { collections := List.map Band.mk env.bandAlphas } with
  | error e => rfl
  | ok cset =>
    cases hl : kwargs.label with
    | none => rfl
    | some lab =>
      cases hlc : legendColor colorVar cmapVar with
      | error e => rfl
      | ok lc => rfl

/-- Claim C2 counterexample: with `colors=["r","g"]` and `cmap="Purples"`
both supplied, the claim says the drawing call must not carry a `cmap`
keyword; the code never pops `cmap` on the discrete-colors branch, so the
caller's `cmap` is forwarded verbatim to the contour primitive. -/
theorem c2_counterexample :
    ((contour_plot env0 xs9 ys9 zs9 false true true false none none none
        { colors := some ["r", "g"],
          cmap := some (CmapArg.str "Purples") }).contourCall.map
      fun c => c.kwargs.cmap) = some (some (CmapArg.str "Purples"))
    ∧ ((contour_plot env0 xs9 ys9 zs9 false true true false none none none
        { colors := some ["r", "g"],
          cmap := some (CmapArg.str "Purples") }).contourCall.map
      fun c => c.kwargs.colors) = some (some ["r", "g"]) :=
  ⟨rfl, rfl⟩

/-- Claim C2 (amended): when an explicit `colors` list is supplied, colormap
derivation is skipped and the drawing call carries the discrete color list;
no `cmap` keyword is added by the renderer, so the call's `cmap` entry is
exactly whatever the caller supplied (absent when the caller supplied
none). -/
theorem c2_colors_skip_derivation (env : Env) (x y : DataArray)
    (z : List (List ℚ)) (shade legend shade_lowest cbar : Bool)
    (cbar_ax : Option Nat) (cbar_kws : Option (List (String × String)))
    (ax : Option Axes) (kwargs : Kwargs) (cs : List Color)
    (hcs : kwargs.colors = some cs) (hx : x.values ≠ []) :
    ∃ call, (contour_plot env x y z shade legend shade_lowest cbar cbar_ax
        cbar_kws ax kwargs).contourCall = some call
      ∧ call.kwargs.colors = some cs
      ∧ call.kwargs.cmap = kwargs.cmap := by
  cases ax <;>
    · simp only [contour_plot]
      rw [if_neg (by simpa using hx)]
      simp only [_contour_plot, hcs]
      exact ⟨_, drawAndDecorate_contourCall _ _ _ _ _ _ _ _ _ _ _ _ _ _ _,
        rfl, rfl⟩

/-- Witness for the amended C2 at a concrete call without a caller `cmap`. -/
theorem c2_colors_skip_derivation_witness :
    ∃ call, (contour_plot env0 xs9 ys9 zs9 false true true false none none
        none { colors := some ["r"] }).contourCall = some call
      ∧ call.kwargs.colors = some ["r"]
      ∧ call.kwargs.cmap = ({ colors := some ["r"] } : Kwargs).cmap :=
  c2_colors_skip_derivation env0 xs9 ys9 zs9 false true true false none none
    none { colors := some ["r"] } ["r"] rfl (by simp [xs9])

/-- Claim C4 (code bug): with `colors` absent and `cmap="Purples_d"`, the
claim says the name resolves to a blended colormap whose first stop is
near-black, without error.  The code instead raises a `NameError` at line
154: the "_d" suffix branch calls `color_palette`, which is not bound in the
module, so the call aborts before the contour primitive is invoked. -/
theorem c4_reversed_cmap_name_unbound :
    (contour_plot env0 xs9 ys9 zs9 false true true false none none none
        { cmap := some (CmapArg.str "Purples_d") }).error
      = some (PyError.nameError "color_palette")
    ∧ (contour_plot env0 xs9 ys9 zs9 false true true false none none none
        { cmap := some (CmapArg.str "Purples_d") }).contourCall = none := by
  constructor <;> decide

/-- Claim C7: when x has zero length, `contour_plot` returns the selected
surface unchanged — no contour call, no contour set, no error, and the
surface state (artifacts, labels, colorbars, cycle position) is exactly the
input surface. -/
theorem c7_empty_x_short_circuit (env : Env) (x y : DataArray)
    (z : List (List ℚ)) (shade legend shade_lowest cbar : Bool)
    (cbar_ax : Option Nat) (cbar_kws : Option (List (String × String)))
    (ax : Option Axes) (kwargs : Kwargs) (hx : x.values = []) :
    contour_plot env x y z shade legend shade_lowest cbar cbar_ax cbar_kws
        ax kwargs
      = { ax := ax.getD env.gca, contourCall := none, cset := none,
          error := none } := by
  cases ax <;> simp [contour_plot, hx]

/-- Witness for C7 at a concrete empty input. -/
theorem c7_empty_x_short_circuit_witness :
    contour_plot env0 { values := [] } ys9 zs9 false true true false none
        none none {}
      = { ax := env0.gca, contourCall := none, cset := none, error := none } := by
  have h := c7_empty_x_short_circuit env0 { values := [] } ys9 zs9 false true
    true false none none none {} rfl
  simpa using h

/-- Claim C3: in filled mode with `shade_lowest=false`, once the contours
are drawn the first (lowest-level) band is set fully transparent, every
other band keeps its computed opacity, and the full level specification was
handed to the primitive, so the lowest band stayed in level computation. -/
theorem c3_lowest_band_transparent (env : Env) (x y : DataArray)
    (z : List (List ℚ)) (legend cbar : Bool) (cbar_ax : Option Nat)
    (cbar_kws : Option (List (String × String))) (ax : Option Axes)
    (kwargs : Kwargs) (a : Option ℚ) (rest : List (Option ℚ))
    (hb : env.bandAlphas = a :: rest)
    (hdraw : (contour_plot env x y z true legend false cbar cbar_ax cbar_kws
        ax kwargs).contourCall.isSome) :
    (contour_plot env x y z true legend false cbar cbar_ax cbar_kws ax
        kwargs).cset
      = some { collections :=
          { alpha := some (0 : ℚ) } :: rest.map Band.mk }
    ∧ ∃ call, (contour_plot env x y z true legend false cbar cbar_ax
          cbar_kws ax kwargs).contourCall = some call
        ∧ call.n_levels = kwargs.n_levels.getD (NLevels.count 10) := by
  by_cases hx : x.values = []
  · cases ax <;> simp [contour_plot, hx] at hdraw
  · rw [contour_plot_nonempty env x y z true legend false cbar cbar_ax
      cbar_kws ax kwargs hx] at hdraw ⊢
    cases hcol : kwargs.colors with
    | some cs =>
      rw [_contour_plot_colors_some env x y z true false legend cbar cbar_ax
        cbar_kws _ kwargs cs hcol]
      exact ⟨drawAndDecorate_cset_suppressed _ _ _ _ _ _ _ _ _ _ _ _ _ a
          rest hb,
        _, drawAndDecorate_contourCall _ _ _ _ _ _ _ _ _ _ _ _ _ _ _, rfl⟩
    | none =>
      cases hcm : kwargs.cmap with
      | none =>
        rw [_contour_plot_cmap_absent env x y z true false legend cbar
          cbar_ax cbar_kws _ kwargs hcol hcm] at hdraw
        simp at hdraw
      | some arg =>
        cases hra : resolveCmapArg arg with
        | error e =>
          rw [_contour_plot_cmap_err env x y z true false legend cbar cbar_ax
            cbar_kws _ kwargs arg e hcol hcm hra] at hdraw
          simp at hdraw
        | ok m =>
          rw [_contour_plot_cmap_ok env x y z true false legend cbar cbar_ax
            cbar_kws _ kwargs arg m hcol hcm hra]
          exact ⟨drawAndDecorate_cset_suppressed _ _ _ _ _ _ _ _ _ _ _ _ _ a
              rest hb,
            _, drawAndDecorate_contourCall _ _ _ _ _ _ _ _ _ _ _ _ _ _ _,
            rfl⟩

/-- Witness for C3 at a concrete filled call with `shade_lowest=false`. -/
theorem c3_lowest_band_transparent_witness :
    (contour_plot env0 xs9 ys9 zs9 true true false false none none none
        { colors := some ["r"] }).cset
      = some { collections :=
          { alpha := some (0 : ℚ) } :: [none, none].map Band.mk }
    ∧ ∃ call, (contour_plot env0 xs9 ys9 zs9 true true false false none none
          none { colors := some ["r"] }).contourCall = some call
        ∧ call.n_levels
          = ({ colors := some ["r"] } : Kwargs).n_levels.getD
              (NLevels.count 10) :=
  c3_lowest_band_transparent env0 xs9 ys9 zs9 true false none none none
    { colors := some ["r"] } none [none, none] rfl (by decide)

/-- Claim C5 counterexample: `label` set, colormap supplied, no explicit
`color`.  The claim says the proxy color is the colormap evaluated at 0.95;
the code binds `color` to the surface's next auto-color (never `None` when
the key is absent), so the proxy carries that base color instead. -/
theorem c5_counterexample :
    (contour_plot env0 xs9 ys9 zs9 false true true false none none none
        { cmap := some (CmapArg.obj (Cmap.user 7)),
          label := some "L" }).ax.artifacts
      = [Artifact.line [] [] (some (RColor.base "C0")) (some "L")]
    ∧ RColor.base "C0" ≠ RColor.cmapAt (Cmap.user 7) (19 / 20 : ℚ) :=
  ⟨rfl, by simp⟩

/-- Claim C5 (amended): when the colormap resolves and `label` is set, the
proxy color is the colormap evaluated at 0.95 exactly when the bound local
`color` is Python `None`, which happens only when the caller explicitly
passed `color=None`; otherwise the proxy carries that bound color — the
explicit `color`, or the surface's next auto-color when the key is absent. -/
theorem c5_legend_proxy_color (env : Env) (x y : DataArray)
    (z : List (List ℚ)) (shade legend shade_lowest cbar : Bool)
    (cbar_ax : Option Nat) (cbar_kws : Option (List (String × String)))
    (ax : Option Axes) (kwargs : Kwargs) (arg : CmapArg) (m : Cmap)
    (lab : String)
    (hcol : kwargs.colors = none) (hcm : kwargs.cmap = some arg)
    (hra : resolveCmapArg arg = Except.ok m)
    (hlab : kwargs.label = some lab)
    (hx : x.values ≠ []) (hb : env.bandAlphas ≠ []) :
    (contour_plot env x y z shade legend shade_lowest cbar cbar_ax cbar_kws
        ax kwargs).ax.artifacts
      = (ax.getD env.gca).artifacts
        ++ [if shade then
              Artifact.fillBetween [] []
                (some (match kwargs.color.getD
                    (some (env.cycle (ax.getD env.gca).cycleIdx)) with
                  | none => RColor.cmapAt m (19 / 20 : ℚ)
                  | some c => RColor.base c)) (some lab)
            else
              Artifact.line [] []
                (some (match kwargs.color.getD
                    (some (env.cycle (ax.getD env.gca).cycleIdx)) with
                  | none => RColor.cmapAt m (19 / 20 : ℚ)
                  | some c => RColor.base c)) (some lab)] := by
  rw [contour_plot_nonempty env x y z shade legend shade_lowest cbar cbar_ax
    cbar_kws ax kwargs hx,
    _contour_plot_cmap_ok env x y z shade shade_lowest legend cbar cbar_ax
    cbar_kws _ kwargs arg m hcol hcm hra]
  have h := drawAndDecorate_proxy env x y z shade shade_lowest legend cbar
    cbar_ax cbar_kws
    { ax.getD env.gca with cycleIdx := (ax.getD env.gca).cycleIdx + 1 }
    (Kwargs.mk none kwargs.colors none (some (CmapArg.obj m)) kwargs.label
      kwargs.extra)
    (kwargs.n_levels.getD (NLevels.count 10))
    (some (kwargs.color.getD (some (env.cycle (ax.getD env.gca).cycleIdx))))
    (some m) lab _ hb hlab (legendColor_some _ m)
  exact h.1

/-- Witness for the amended C5: passing `color=None` explicitly makes the
proxy color the colormap evaluated at 0.95. -/
theorem c5_legend_proxy_color_witness :
    (contour_plot env0 xs9 ys9 zs9 false true true false none none none
        { color := some none, cmap := some (CmapArg.obj (Cmap.user 3)),
          label := some "L" }).ax.artifacts
      = [Artifact.line [] []
          (some (RColor.cmapAt (Cmap.user 3) (19 / 20 : ℚ))) (some "L")] :=
  c5_legend_proxy_color env0 xs9 ys9 zs9 false true true false none none
    none
    { color := some none, cmap := some (CmapArg.obj (Cmap.user 3)),
      label := some "L" }
    (CmapArg.obj (Cmap.user 3)) (Cmap.user 3) "L" rfl rfl rfl rfl
    (by simp [xs9]) (by simp [env0])

/-- Claim C6 counterexample: with an explicit `colors` list and a label, the
call removes the label from the kwargs but then dies reading the unbound
local `color`, so no legend proxy is ever added to the surface. -/
theorem c6_counterexample :
    (contour_plot env0 xs9 ys9 zs9 false true true false none none none
        { colors := some ["r"], label := some "L" }).ax.artifacts = []
    ∧ (contour_plot env0 xs9 ys9 zs9 false true true false none none none
        { colors := some ["r"], label := some "L" }).error
      = some (PyError.unboundLocal "color") :=
  ⟨rfl, rfl⟩

/-- Claim C6 (amended): for every call with a label in which color/colormap
resolution succeeds (colors absent, resolvable cmap) and the drawing
completes, the `label` key is stripped from the keywords handed to the
contour primitive, and exactly one zero-length proxy carrying the label is
added: a filled-area in filled mode, a line otherwise. -/
theorem c6_label_popped_single_proxy (env : Env) (x y : DataArray)
    (z : List (List ℚ)) (shade legend shade_lowest cbar : Bool)
    (cbar_ax : Option Nat) (cbar_kws : Option (List (String × String)))
    (ax : Option Axes) (kwargs : Kwargs) (arg : CmapArg) (m : Cmap)
    (lab : String)
    (hcol : kwargs.colors = none) (hcm : kwargs.cmap = some arg)
    (hra : resolveCmapArg arg = Except.ok m)
    (hlab : kwargs.label = some lab)
    (hx : x.values ≠ []) (hb : env.bandAlphas ≠ []) :
    ∃ call, (contour_plot env x y z shade legend shade_lowest cbar cbar_ax
        cbar_kws ax kwargs).contourCall = some call
      ∧ call.kwargs.label = none
      ∧ (∃ lc, (contour_plot env x y z shade legend shade_lowest cbar
            cbar_ax cbar_kws ax kwargs).ax.artifacts
          = (ax.getD env.gca).artifacts
            ++ [if shade then Artifact.fillBetween [] [] (some lc) (some lab)
                else Artifact.line [] [] (some lc) (some lab)])
      ∧ (contour_plot env x y z shade legend shade_lowest cbar cbar_ax
          cbar_kws ax kwargs).error = none := by
  rw [contour_plot_nonempty env x y z shade legend shade_lowest cbar cbar_ax
    cbar_kws ax kwargs hx,
    _contour_plot_cmap_ok env x y z shade shade_lowest legend cbar cbar_ax
    cbar_kws _ kwargs arg m hcol hcm hra]
  have h := drawAndDecorate_proxy env x y z shade shade_lowest legend cbar
    cbar_ax cbar_kws
    { ax.getD env.gca with cycleIdx := (ax.getD env.gca).cycleIdx + 1 }
    (Kwargs.mk none kwargs.colors none (some (CmapArg.obj m)) kwargs.label
      kwargs.extra)
    (kwargs.n_levels.getD (NLevels.count 10))
    (some (kwargs.color.getD (some (env.cycle (ax.getD env.gca).cycleIdx))))
    (some m) lab _ hb hlab (legendColor_some _ m)
  exact ⟨_, drawAndDecorate_contourCall _ _ _ _ _ _ _ _ _ _ _ _ _ _ _, rfl,
    ⟨_, h.1⟩, h.2⟩

/-- Witness for the amended C6 at a concrete unfilled call. -/
theorem c6_label_popped_single_proxy_witness :
    ∃ call, (contour_plot env0 xs9 ys9 zs9 false true true false none none
        none { cmap := some (CmapArg.obj (Cmap.user 7)),
               label := some "L" }).contourCall = some call
      ∧ call.kwargs.label = none
      ∧ (∃ lc, (contour_plot env0 xs9 ys9 zs9 false true true false none
            none none { cmap := some (CmapArg.obj (Cmap.user 7)),
                        label := some "L" }).ax.artifacts
          = ((none : Option Axes).getD env0.gca).artifacts
            ++ [if false then Artifact.fillBetween [] [] (some lc)
                  (some "L")
                else Artifact.line [] [] (some lc) (some "L")])
      ∧ (contour_plot env0 xs9 ys9 zs9 false true true false none none none
          { cmap := some (CmapArg.obj (Cmap.user 7)),
            label := some "L" }).error = none :=
  c6_label_popped_single_proxy env0 xs9 ys9 zs9 false true true false none
    none none
    { cmap := some (CmapArg.obj (Cmap.user 7)), label := some "L" }
    (CmapArg.obj (Cmap.user 7)) (Cmap.user 7) "L" rfl rfl rfl rfl
    (by simp [xs9]) (by simp [env0])

/-- Claim C8: on every call that reaches the drawing step, the x-axis label
is set to x's name attribute when `legend` holds and the name exists, and is
left as it was otherwise; likewise for y. -/
theorem c8_axis_labels (env : Env) (x y : DataArray) (z : List (List ℚ))
    (shade legend shade_lowest cbar : Bool) (cbar_ax : Option Nat)
    (cbar_kws : Option (List (String × String))) (ax : Option Axes)
    (kwargs : Kwargs) (hb : env.bandAlphas ≠ [])
    (hdraw : (contour_plot env x y z shade legend shade_lowest cbar cbar_ax
        cbar_kws ax kwargs).contourCall.isSome) :
    (contour_plot env x y z shade legend shade_lowest cbar cbar_ax cbar_kws
        ax kwargs).ax.xlabel
      = (if x.name.isSome && legend then x.name
         else (ax.getD env.gca).xlabel)
    ∧ (contour_plot env x y z shade legend shade_lowest cbar cbar_ax
        cbar_kws ax kwargs).ax.ylabel
      = (if y.name.isSome && legend then y.name
         else (ax.getD env.gca).ylabel) := by
  by_cases hx : x.values = []
  · cases ax <;> simp [contour_plot, hx] at hdraw
  · rw [contour_plot_nonempty env x y z shade legend shade_lowest cbar
      cbar_ax cbar_kws ax kwargs hx] at hdraw ⊢
    cases hcol : kwargs.colors with
    | some cs =>
      rw [_contour_plot_colors_some env x y z shade shade_lowest legend cbar
        cbar_ax cbar_kws _ kwargs cs hcol]
      exact ⟨drawAndDecorate_xlabel _ _ _ _ _ _ _ _ _ _ _ _ _ _ _ hb,
        drawAndDecorate_ylabel _ _ _ _ _ _ _ _ _ _ _ _ _ _ _ hb⟩
    | none =>
      cases hcm : kwargs.cmap with
      | none =>
        rw [_contour_plot_cmap_absent env x y z shade shade_lowest legend
          cbar cbar_ax cbar_kws _ kwargs hcol hcm] at hdraw
        simp at hdraw
      | some arg =>
        cases hra : resolveCmapArg arg with
        | error e =>
          rw [_contour_plot_cmap_err env x y z shade shade_lowest legend
            cbar cbar_ax cbar_kws _ kwargs arg e hcol hcm hra] at hdraw
          simp at hdraw
        | ok m =>
          rw [_contour_plot_cmap_ok env x y z shade shade_lowest legend cbar
            cbar_ax cbar_kws _ kwargs arg m hcol hcm hra]
          exact ⟨drawAndDecorate_xlabel _ _ _ _ _ _ _ _ _ _ _ _ _ _ _ hb,
            drawAndDecorate_ylabel _ _ _ _ _ _ _ _ _ _ _ _ _ _ _ hb⟩

/-- A named x input for the C8 witness. -/
def xsNamed : DataArray := { values := [1, 2, 3], name := some "xcol" }

/-- An unnamed y input for the C8 witness. -/
def ysPlain : DataArray := { values := [1, 2, 3] }

/-- Witness for C8: with `legend=true`, a named x sets the x-axis label and
an unnamed y leaves the y-axis label unset. -/
theorem c8_axis_labels_witness :
    (contour_plot env0 xsNamed ysPlain zs9 false true true false none none
        none { colors := some ["r"] }).ax.xlabel
      = (if xsNamed.name.isSome && true then xsNamed.name
         else ((none : Option Axes).getD env0.gca).xlabel)
    ∧ (contour_plot env0 xsNamed ysPlain zs9 false true true false none none
        none { colors := some ["r"] }).ax.ylabel
      = (if ysPlain.name.isSome && true then ysPlain.name
         else ((none : Option Axes).getD env0.gca).ylabel) :=
  c8_axis_labels env0 xsNamed ysPlain zs9 false true true false none none
    none { colors := some ["r"] } (by simp [env0]) (by decide)

/-- Claim C9: on every path — empty-x short-circuit, error paths, and
completed draws — the surface carried by the result is the very object that
was selected at entry: the `ax` argument when given, the current default
surface otherwise.  Object identity is the `id` field, which no operation
changes. -/
theorem c9_returns_selected_surface (env : Env) (x y : DataArray)
    (z : List (List ℚ)) (shade legend shade_lowest cbar : Bool)
    (cbar_ax : Option Nat) (cbar_kws : Option (List (String × String)))
    (ax : Option Axes) (kwargs : Kwargs) :
    (contour_plot env x y z shade legend shade_lowest cbar cbar_ax cbar_kws
        ax kwargs).ax.id = (ax.getD env.gca).id := by
  by_cases hx : x.values = []
  · cases ax <;> simp [contour_plot, hx]
  · rw [contour_plot_nonempty env x y z shade legend shade_lowest cbar
      cbar_ax cbar_kws ax kwargs hx]
    cases hcol : kwargs.colors with
    | some cs =>
      rw [_contour_plot_colors_some env x y z shade shade_lowest legend cbar
        cbar_ax cbar_kws _ kwargs cs hcol]
      exact drawAndDecorate_ax_id _ _ _ _ _ _ _ _ _ _ _ _ _ _ _
    | none =>
      cases hcm : kwargs.cmap with
      | none =>
        rw [_contour_plot_cmap_absent env x y z shade shade_lowest legend
          cbar cbar_ax cbar_kws _ kwargs hcol hcm]
      | some arg =>
        cases hra : resolveCmapArg arg with
        | error e =>
          rw [_contour_plot_cmap_err env x y z shade shade_lowest legend
            cbar cbar_ax cbar_kws _ kwargs arg e hcol hcm hra]
        | ok m =>
          rw [_contour_plot_cmap_ok env x y z shade shade_lowest legend cbar
            cbar_ax cbar_kws _ kwargs arg m hcol hcm hra]
          exact drawAndDecorate_ax_id _ _ _ _ _ _ _ _ _ _ _ _ _ _ _

/-- Claim C10: an explicit `colors` list together with a label draws the
contours, then dies with an unbound-name error reading the local `color`
at the legend-proxy step, before any proxy is added. -/
theorem c10_colors_with_label_crashes (env : Env) (x y : DataArray)
    (z : List (List ℚ)) (shade legend shade_lowest cbar : Bool)
    (cbar_ax : Option Nat) (cbar_kws : Option (List (String × String)))
    (ax : Option Axes) (kwargs : Kwargs) (cs : List Color) (lab : String)
    (hcs : kwargs.colors = some cs) (hlab : kwargs.label = some lab)
    (hx : x.values ≠ []) (hb : env.bandAlphas ≠ []) :
    (contour_plot env x y z shade legend shade_lowest cbar cbar_ax cbar_kws
        ax kwargs).error = some (PyError.unboundLocal "color")
    ∧ (contour_plot env x y z shade legend shade_lowest cbar cbar_ax
        cbar_kws ax kwargs).contourCall.isSome
    ∧ (contour_plot env x y z shade legend shade_lowest cbar cbar_ax
        cbar_kws ax kwargs).ax.artifacts = (ax.getD env.gca).artifacts := by
  rw [contour_plot_nonempty env x y z shade legend shade_lowest cbar cbar_ax
    cbar_kws ax kwargs hx,
    _contour_plot_colors_some env x y z shade shade_lowest legend cbar
    cbar_ax cbar_kws _ kwargs cs hcs]
  have h := drawAndDecorate_unbound_color env x y z shade shade_lowest
    legend cbar cbar_ax cbar_kws
    { ax.getD env.gca with cycleIdx := (ax.getD env.gca).cycleIdx + 1 }
    (Kwargs.mk none (some cs) kwargs.color kwargs.cmap kwargs.label
      kwargs.extra)
    (kwargs.n_levels.getD (NLevels.count 10)) none lab hb hlab
  refine ⟨h.1, ?_, h.2⟩
  rw [drawAndDecorate_contourCall _ _ _ _ _ _ _ _ _ _ _ _ _ _ _]
  rfl

/-- Witness for C10 at a concrete call. -/
theorem c10_colors_with_label_crashes_witness :
    (contour_plot env0 xs9 ys9 zs9 false true true false none none none
        { colors := some ["r"], label := some "L" }).error
      = some (PyError.unboundLocal "color")
    ∧ (contour_plot env0 xs9 ys9 zs9 false true true false none none none
        { colors := some ["r"], label := some "L" }).contourCall.isSome
    ∧ (contour_plot env0 xs9 ys9 zs9 false true true false none none none
        { colors := some ["r"], label := some "L" }).ax.artifacts
      = ((none : Option Axes).getD env0.gca).artifacts :=
  c10_colors_with_label_crashes env0 xs9 ys9 zs9 false true true false none
    none none { colors := some ["r"], label := some "L" } ["r"] "L" rfl rfl
    (by simp [xs9]) (by simp [env0])

end Vis
